import Mathlib

/-!
# Verification of the caching / batch-orchestration layer of `src/app.py`

Shallow embedding of the class `PDFProcessor` (src/app.py, lines 15-124).
The external collaborators (HTTP fetch, LlamaIndex index construction, the
query engine) are modelled as an explicit environment of deterministic
functions that may fail; the mutable instance state (`self.cache`,
`self.index_cache`, plus the fixed transient file `temp.pdf`) is threaded
explicitly.  Every operation additionally reports how many times each
collaborator was invoked, so that "invokes the collaborator at most once"
style properties can be stated.

Python exceptions are modelled as a pair of the exception class name and its
message: `raise Exception(f"...")` becomes `.error ⟨"Exception", "..."⟩`, and
`str(e)` is the message component.
-/

/-- A Python exception value: its class name and its message (`str(e)`). -/
structure PyErr where
  cls : String
  msg : String
deriving DecidableEq, Repr

/-- Raw document bytes (`httpx.get(url).content`). -/
abbrev Bytes := List Nat

/-- The external collaborators of src/app.py, as deterministic fallible
functions.  `fetch` is `httpx.get(url).content`; `buildIndex` is the
composition `SimpleDirectoryReader.load_data` + `SentenceSplitter(chunk_size,
chunk_overlap)` + `VectorStoreIndex.from_documents` (src/app.py lines 50-64),
taking the chunking configuration as arguments; `queryEngine` is
`index.as_query_engine(streaming=True, similarity_top_k=k,
response_mode=mode).query(queryText)` followed by `str(response)`
(src/app.py lines 89-96), taking `k` and `mode` as arguments. -/
structure Env (Ix : Type) where
  fetch : String → Except PyErr Bytes
  buildIndex : Bytes → Nat → Nat → Except PyErr Ix
  queryEngine : Ix → String → Nat → String → Except PyErr String

/-- Number of invocations of each collaborator during one operation. -/
structure Calls where
  fetch : Nat
  build : Nat
  engine : Nat
deriving DecidableEq, Repr

/-- Componentwise sum of invocation counts. -/
def Calls.add (a b : Calls) : Calls :=
  ⟨a.fetch + b.fetch, a.build + b.build, a.engine + b.engine⟩

/-- The mutable state of a `PDFProcessor` instance: the answer cache
`self.cache` (keyed by `f"{pdf_url}:{query}"`), the index cache
`self.index_cache` (keyed by `pdf_url`), and the contents of the fixed
transient file `temp.pdf` when it exists.  The two Python dicts are modelled
as association lists where insertion conses in front and lookup takes the
first match. -/
structure PState (Ix : Type) where
  cache : List (String × String)
  index_cache : List (String × Ix)
  tempFile : Option Bytes
deriving DecidableEq, Repr

/-- The state right after `PDFProcessor.__init__`: both caches empty, no
transient file (src/app.py lines 31-33). -/
def PState.init {Ix : Type} : PState Ix := ⟨[], [], Option.none⟩

/-- First-match association-list lookup, modelling both `key in dict` and
`dict[key]` on a Python dict represented as an association list. -/
def lookup? {α : Type} (k : String) : List (String × α) → Option α
  | [] => Option.none
  | (k', v) :: rest => if k' = k then some v else lookup? k rest

/-- Result of one orchestrator operation: the returned value or the raised
exception, the state of the `PDFProcessor` instance afterwards, and the
collaborator invocation counts. -/
structure Res (Ix α : Type) where
  out : Except PyErr α
  st : PState Ix
  calls : Calls

/-- `PDFProcessor.create_index_from_pdf` (src/app.py lines 35-75).
On an index-cache hit the cached index is returned with no collaborator
invocation and no state change.  Otherwise the document is fetched, written
to `temp.pdf`, an index is built with chunk size 1024 and overlap 20, the
index is stored in the index cache, `temp.pdf` is removed, and the index is
returned.  Any failure is re-raised as a generic
`Exception("Error creating index: " + str(e))`; on the failure paths the
transient file is not cleaned up. -/
def create_index_from_pdf {Ix : Type} (env : Env Ix) (st : PState Ix)
    (pdf_url : String) : Res Ix Ix :=
  match lookup? pdf_url st.index_cache with
  | some ix => ⟨.ok ix, st, ⟨0, 0, 0⟩⟩
  | Option.none =>
    match env.fetch pdf_url with
    | .error e => ⟨.error ⟨"Exception", "Error creating index: " ++ e.msg⟩, st, ⟨1, 0, 0⟩⟩
    | .ok content =>
      let st1 : PState Ix := { st with tempFile := some content }
      match env.buildIndex content 1024 20 with
      | .error e =>
        ⟨.error ⟨"Exception", "Error creating index: " ++ e.msg⟩, st1, ⟨1, 1, 0⟩⟩
      | .ok index =>
        ⟨.ok index,
         { st1 with index_cache := (pdf_url, index) :: st1.index_cache,
                    tempFile := Option.none },
         ⟨1, 1, 0⟩⟩

/-- The `try` block of `PDFProcessor.process_pdf` (src/app.py lines 84-104):
build or fetch the index, invoke the query engine with `similarity_top_k=3`
and `response_mode="tree_summarize"`, store the answer under the cache key
when `use_cache` is set, and return it.  Any failure is re-raised as a
generic `Exception("Error processing PDF: " + str(e))`. -/
def process_pdf_go {Ix : Type} (env : Env Ix) (st : PState Ix)
    (pdf_url query : String) (use_cache : Bool) : Res Ix String :=
  match create_index_from_pdf env st pdf_url with
  | ⟨.error e, st1, calls1⟩ =>
    ⟨.error ⟨"Exception", "Error processing PDF: " ++ e.msg⟩, st1, calls1⟩
  | ⟨.ok index, st1, calls1⟩ =>
    match env.queryEngine index query 3 "tree_summarize" with
    | .error e =>
      ⟨.error ⟨"Exception", "Error processing PDF: " ++ e.msg⟩, st1,
       Calls.add calls1 ⟨0, 0, 1⟩⟩
    | .ok response =>
      ⟨.ok response,
       if use_cache then
         { st1 with cache := (pdf_url ++ ":" ++ query, response) :: st1.cache }
       else st1,
       Calls.add calls1 ⟨0, 0, 1⟩⟩

/-- `PDFProcessor.process_pdf` (src/app.py lines 77-104).  The cache key is
the string concatenation `pdf_url + ":" + query`; when `use_cache` is set
and the key is present the cached answer is returned immediately with no
collaborator invocation, otherwise the `try` block runs.  In the Python
source `use_cache` defaults to `True`; callers here pass it explicitly. -/
def process_pdf {Ix : Type} (env : Env Ix) (st : PState Ix)
    (pdf_url query : String) (use_cache : Bool) : Res Ix String :=
  match use_cache, lookup? (pdf_url ++ ":" ++ query) st.cache with
  | true, some cached => ⟨.ok cached, st, ⟨0, 0, 0⟩⟩
  | true, Option.none => process_pdf_go env st pdf_url query true
  | false, _ => process_pdf_go env st pdf_url query false

/-- One element of the list returned by `batch_process_pdfs`
(src/app.py lines 113-123): the dict
`{"url": ..., "result": ..., "status": "success" | "error"}`. -/
structure BatchItem where
  url : String
  result : String
  status : String
deriving DecidableEq, Repr

/-- `PDFProcessor.batch_process_pdfs` (src/app.py lines 106-124): iterate the
urls in order, calling `process_pdf(url, query)` (with its default
`use_cache=True`) for each; on success append a `"success"` item carrying
the answer, on exception `e` append an `"error"` item carrying `str(e)`, and
always continue with the remaining urls. -/
def batch_process_pdfs {Ix : Type} (env : Env Ix) (st : PState Ix)
    (pdf_urls : List String) (query : String) :
    List BatchItem × PState Ix × Calls :=
  match pdf_urls with
  | [] => ([], st, ⟨0, 0, 0⟩)
  | url :: rest =>
    let R := process_pdf env st url query true
    let item : BatchItem :=
      match R.out with
      | .ok result => ⟨url, result, "success"⟩
      | .error e => ⟨url, e.msg, "error"⟩
    let rec' := batch_process_pdfs env R.st rest query
    (item :: rec'.1, rec'.2.1, Calls.add R.calls rec'.2.2)

/-! ## Concrete environments used by witnesses and counterexamples -/

/-- All collaborators succeed. -/
def envOk : Env Nat :=
  ⟨fun _ => .ok [1, 2, 3],
   fun _ _ _ => .ok 7,
   fun ix q _ _ => .ok ("answer " ++ toString ix ++ " " ++ q)⟩

/-- The fetch fails (network error); nothing else is ever reached. -/
def envFetchFail : Env Nat :=
  ⟨fun _ => .error ⟨"ConnectError", "connection refused"⟩,
   fun _ _ _ => .ok 7,
   fun _ _ _ _ => .ok "unused"⟩

/-- The fetch succeeds but index construction always fails. -/
def envBuildFail : Env Nat :=
  ⟨fun _ => .ok [1, 2, 3],
   fun _ _ _ => .error ⟨"ValueError", "malformed PDF"⟩,
   fun _ _ _ _ => .ok "unused"⟩

/-- Index construction succeeds but the query engine always fails. -/
def envEngineFail : Env Nat :=
  ⟨fun _ => .ok [1, 2, 3],
   fun _ _ _ => .ok 7,
   fun _ _ _ _ => .error ⟨"APIError", "engine blew up"⟩⟩

/-- One url succeeds, the other fails at fetch time. -/
def envMixed : Env Nat :=
  ⟨fun u => if u = "urlB" then .error ⟨"HTTPStatusError", "404 Not Found"⟩ else .ok [1, 2, 3],
   fun _ _ _ => .ok 7,
   fun ix q _ _ => .ok ("answer " ++ toString ix ++ " " ++ q)⟩

/-! ## Helper lemmas about `create_index_from_pdf` -/

/-- On an index-cache hit, `create_index_from_pdf` returns the cached index
unchanged, mutates nothing and invokes no collaborator. -/
lemma create_index_cached {Ix : Type} (env : Env Ix) (st : PState Ix)
    (s : String) (ix : Ix) (h : lookup? s st.index_cache = some ix) :
    create_index_from_pdf env st s = ⟨.ok ix, st, ⟨0, 0, 0⟩⟩ := by
  unfold create_index_from_pdf
  rw [h]

/-- `create_index_from_pdf` never invokes the query engine. -/
lemma create_index_engine_zero {Ix : Type} (env : Env Ix) (st : PState Ix)
    (s : String) : (create_index_from_pdf env st s).calls.engine = 0 := by
  unfold create_index_from_pdf
  split
  · rfl
  · split
    · rfl
    · split <;> rfl

/-- `create_index_from_pdf` invokes the index builder at most once. -/
lemma create_index_build_le_one {Ix : Type} (env : Env Ix) (st : PState Ix)
    (s : String) : (create_index_from_pdf env st s).calls.build ≤ 1 := by
  unfold create_index_from_pdf
  split
  · exact Nat.zero_le 1
  · split
    · exact Nat.zero_le 1
    · split <;> exact Nat.le_refl 1

/-- `create_index_from_pdf` never touches the answer cache. -/
lemma create_index_cache_eq {Ix : Type} (env : Env Ix) (st : PState Ix)
    (s : String) : (create_index_from_pdf env st s).st.cache = st.cache := by
  unfold create_index_from_pdf
  split
  · rfl
  · split
    · rfl
    · split <;> rfl

/-- The index cache is insert-only: any entry present before
`create_index_from_pdf` is still present (with the same value) afterwards. -/
lemma create_index_index_preserved {Ix : Type} (env : Env Ix) (st : PState Ix)
    (s k : String) (v : Ix) (h : lookup? k st.index_cache = some v) :
    lookup? k (create_index_from_pdf env st s).st.index_cache = some v := by
  unfold create_index_from_pdf
  split
  · exact h
  · rename_i hmiss
    split
    · exact h
    · split
      · exact h
      · show lookup? k ((s, _) :: st.index_cache) = some v
        unfold lookup?
        by_cases hks : s = k
        · subst hks
          rw [hmiss] at h
          exact absurd h (by simp)
        · rw [if_neg hks]
          exact h

/-- If `create_index_from_pdf` succeeds, the returned index is in the index
cache of the resulting state, under the source's key. -/
lemma create_index_ok_lookup {Ix : Type} (env : Env Ix) (st : PState Ix)
    (s : String) (j : Ix) (h : (create_index_from_pdf env st s).out = .ok j) :
    lookup? s (create_index_from_pdf env st s).st.index_cache = some j := by
  unfold create_index_from_pdf at h ⊢
  split at h
  · rename_i ix hhit
    simp only [Except.ok.injEq] at h
    subst h
    exact hhit
  · rename_i hmiss
    split at h
    · exact absurd h (by simp)
    · split at h
      · exact absurd h (by simp)
      · rename_i index hbuild
        simp only [Except.ok.injEq] at h
        subst h
        simp [lookup?]

/-- Every failure of `create_index_from_pdf` surfaces as a generic
`Exception` whose message wraps the underlying cause's message after the
fixed text `Error creating index: `, the cause being either a fetch failure
or an index-builder failure. -/
lemma create_index_error_shape {Ix : Type} (env : Env Ix) (st : PState Ix)
    (s : String) (e : PyErr)
    (h : (create_index_from_pdf env st s).out = .error e) :
    e.cls = "Exception" ∧
    ∃ cause : PyErr, e.msg = "Error creating index: " ++ cause.msg ∧
      (env.fetch s = .error cause ∨
       ∃ b, env.fetch s = .ok b ∧ env.buildIndex b 1024 20 = .error cause) := by
  unfold create_index_from_pdf at h
  split at h
  · exact absurd h (by simp)
  · split at h
    · rename_i e0 hfetch
      simp only [Except.error.injEq] at h
      subst h
      exact ⟨rfl, e0, rfl, Or.inl hfetch⟩
    · rename_i b hfetch
      split at h
      · rename_i e0 hbuild
        simp only [Except.error.injEq] at h
        subst h
        exact ⟨rfl, e0, rfl, Or.inr ⟨b, hfetch, hbuild⟩⟩
      · exact absurd h (by simp)

/-! ## Helper lemmas about `process_pdf` -/

/-- On an answer-cache hit with `use_cache` set, `process_pdf` returns the
cached answer, mutates nothing and invokes no collaborator. -/
lemma process_pdf_hit {Ix : Type} (env : Env Ix) (st : PState Ix)
    (s q r : String) (h : lookup? (s ++ ":" ++ q) st.cache = some r) :
    process_pdf env st s q true = ⟨.ok r, st, ⟨0, 0, 0⟩⟩ := by
  unfold process_pdf
  rw [h]

/-- On an answer-cache miss with `use_cache` set, `process_pdf` runs its
`try` block. -/
lemma process_pdf_miss {Ix : Type} (env : Env Ix) (st : PState Ix)
    (s q : String) (h : lookup? (s ++ ":" ++ q) st.cache = Option.none) :
    process_pdf env st s q true = process_pdf_go env st s q true := by
  unfold process_pdf
  rw [h]

/-- With `use_cache` unset, `process_pdf` skips the cache and runs its `try`
block directly. -/
lemma process_pdf_false {Ix : Type} (env : Env Ix) (st : PState Ix)
    (s q : String) :
    process_pdf env st s q false = process_pdf_go env st s q false := by
  rfl

/-- Dispatch: the `try` block when index construction fails. -/
lemma process_pdf_go_eq_error {Ix : Type} (env : Env Ix) (st st1 : PState Ix)
    (s q : String) (uc : Bool) (e : PyErr) (c1 : Calls)
    (heq : create_index_from_pdf env st s = ⟨.error e, st1, c1⟩) :
    process_pdf_go env st s q uc =
      ⟨.error ⟨"Exception", "Error processing PDF: " ++ e.msg⟩, st1, c1⟩ := by
  unfold process_pdf_go
  rw [heq]

/-- Dispatch: the `try` block when index construction succeeds but the
query engine fails. -/
lemma process_pdf_go_eq_qerror {Ix : Type} (env : Env Ix) (st st1 : PState Ix)
    (s q : String) (uc : Bool) (ix : Ix) (e : PyErr) (c1 : Calls)
    (heq : create_index_from_pdf env st s = ⟨.ok ix, st1, c1⟩)
    (hq : env.queryEngine ix q 3 "tree_summarize" = .error e) :
    process_pdf_go env st s q uc =
      ⟨.error ⟨"Exception", "Error processing PDF: " ++ e.msg⟩, st1,
       Calls.add c1 ⟨0, 0, 1⟩⟩ := by
  unfold process_pdf_go
  rw [heq]
  simp only [hq]

/-- Dispatch: the `try` block when index construction and the query engine
both succeed. -/
lemma process_pdf_go_eq_ok {Ix : Type} (env : Env Ix) (st st1 : PState Ix)
    (s q : String) (uc : Bool) (ix : Ix) (r : String) (c1 : Calls)
    (heq : create_index_from_pdf env st s = ⟨.ok ix, st1, c1⟩)
    (hq : env.queryEngine ix q 3 "tree_summarize" = .ok r) :
    process_pdf_go env st s q uc =
      ⟨.ok r,
       if uc then { st1 with cache := (s ++ ":" ++ q, r) :: st1.cache } else st1,
       Calls.add c1 ⟨0, 0, 1⟩⟩ := by
  unfold process_pdf_go
  rw [heq]
  simp only [hq]

/-- When the `try` block succeeds with `use_cache` set, the answer it
returns is stored in the answer cache under `pdf_url ++ ":" ++ query`. -/
lemma process_pdf_go_ok_lookup {Ix : Type} (env : Env Ix) (st : PState Ix)
    (s q r : String) (h : (process_pdf_go env st s q true).out = .ok r) :
    lookup? (s ++ ":" ++ q) (process_pdf_go env st s q true).st.cache = some r := by
  rcases hR : create_index_from_pdf env st s with ⟨out, st1, c1⟩
  cases out with
  | error e =>
    rw [process_pdf_go_eq_error env st st1 s q true e c1 hR] at h
    exact absurd h (by simp)
  | ok ix =>
    cases hq : env.queryEngine ix q 3 "tree_summarize" with
    | error e =>
      rw [process_pdf_go_eq_qerror env st st1 s q true ix e c1 hR hq] at h
      exact absurd h (by simp)
    | ok r0 =>
      rw [process_pdf_go_eq_ok env st st1 s q true ix r0 c1 hR hq] at h ⊢
      simp only [Except.ok.injEq] at h
      subst h
      simp [lookup?]

/-- The `try` block invokes the fetcher exactly as often as
`create_index_from_pdf` does. -/
lemma process_pdf_go_fetch {Ix : Type} (env : Env Ix) (st : PState Ix)
    (s q : String) (uc : Bool) :
    (process_pdf_go env st s q uc).calls.fetch =
      (create_index_from_pdf env st s).calls.fetch := by
  rcases hR : create_index_from_pdf env st s with ⟨out, st1, c1⟩
  cases out with
  | error e => rw [process_pdf_go_eq_error env st st1 s q uc e c1 hR]
  | ok ix =>
    cases hq : env.queryEngine ix q 3 "tree_summarize" with
    | error e =>
      rw [process_pdf_go_eq_qerror env st st1 s q uc ix e c1 hR hq]
      simp [Calls.add]
    | ok r =>
      rw [process_pdf_go_eq_ok env st st1 s q uc ix r c1 hR hq]
      simp [Calls.add]

/-- The `try` block invokes the index builder exactly as often as
`create_index_from_pdf` does. -/
lemma process_pdf_go_build {Ix : Type} (env : Env Ix) (st : PState Ix)
    (s q : String) (uc : Bool) :
    (process_pdf_go env st s q uc).calls.build =
      (create_index_from_pdf env st s).calls.build := by
  rcases hR : create_index_from_pdf env st s with ⟨out, st1, c1⟩
  cases out with
  | error e => rw [process_pdf_go_eq_error env st st1 s q uc e c1 hR]
  | ok ix =>
    cases hq : env.queryEngine ix q 3 "tree_summarize" with
    | error e =>
      rw [process_pdf_go_eq_qerror env st st1 s q uc ix e c1 hR hq]
      simp [Calls.add]
    | ok r =>
      rw [process_pdf_go_eq_ok env st st1 s q uc ix r c1 hR hq]
      simp [Calls.add]

/-- The `try` block invokes the query engine at most once. -/
lemma process_pdf_go_engine_le_one {Ix : Type} (env : Env Ix) (st : PState Ix)
    (s q : String) (uc : Bool) :
    (process_pdf_go env st s q uc).calls.engine ≤ 1 := by
  have hz := create_index_engine_zero env st s
  rcases hR : create_index_from_pdf env st s with ⟨out, st1, c1⟩
  have hz' : c1.engine = 0 := by rw [hR] at hz; exact hz
  cases out with
  | error e =>
    rw [process_pdf_go_eq_error env st st1 s q uc e c1 hR]
    exact le_of_eq_of_le hz' (Nat.zero_le 1)
  | ok ix =>
    cases hq : env.queryEngine ix q 3 "tree_summarize" with
    | error e =>
      rw [process_pdf_go_eq_qerror env st st1 s q uc ix e c1 hR hq]
      simp [Calls.add]
      omega
    | ok r =>
      rw [process_pdf_go_eq_ok env st st1 s q uc ix r c1 hR hq]
      simp [Calls.add]
      omega

/-- The `try` block leaves the index cache exactly as
`create_index_from_pdf` left it (only the answer cache is ever extended
afterwards). -/
lemma process_pdf_go_index_cache {Ix : Type} (env : Env Ix) (st : PState Ix)
    (s q : String) (uc : Bool) :
    (process_pdf_go env st s q uc).st.index_cache =
      (create_index_from_pdf env st s).st.index_cache := by
  rcases hR : create_index_from_pdf env st s with ⟨out, st1, c1⟩
  cases out with
  | error e => rw [process_pdf_go_eq_error env st st1 s q uc e c1 hR]
  | ok ix =>
    cases hq : env.queryEngine ix q 3 "tree_summarize" with
    | error e => rw [process_pdf_go_eq_qerror env st st1 s q uc ix e c1 hR hq]
    | ok r =>
      rw [process_pdf_go_eq_ok env st st1 s q uc ix r c1 hR hq]
      cases uc <;> simp

/-- If the `try` block fails, the answer cache is unchanged. -/
lemma process_pdf_go_error_cache {Ix : Type} (env : Env Ix) (st : PState Ix)
    (s q : String) (uc : Bool) (e : PyErr)
    (h : (process_pdf_go env st s q uc).out = .error e) :
    (process_pdf_go env st s q uc).st.cache = st.cache := by
  have hc := create_index_cache_eq env st s
  rcases hR : create_index_from_pdf env st s with ⟨out, st1, c1⟩
  rw [hR] at hc
  cases out with
  | error e0 => rw [process_pdf_go_eq_error env st st1 s q uc e0 c1 hR]; exact hc
  | ok ix =>
    cases hq : env.queryEngine ix q 3 "tree_summarize" with
    | error e0 =>
      rw [process_pdf_go_eq_qerror env st st1 s q uc ix e0 c1 hR hq]
      exact hc
    | ok r =>
      rw [process_pdf_go_eq_ok env st st1 s q uc ix r c1 hR hq] at h
      exact absurd h (by simp)

/-- With `use_cache` unset, the `try` block leaves the answer cache
unchanged. -/
lemma process_pdf_go_false_cache {Ix : Type} (env : Env Ix) (st : PState Ix)
    (s q : String) :
    (process_pdf_go env st s q false).st.cache = st.cache := by
  have hc := create_index_cache_eq env st s
  rcases hR : create_index_from_pdf env st s with ⟨out, st1, c1⟩
  rw [hR] at hc
  cases out with
  | error e0 => rw [process_pdf_go_eq_error env st st1 s q false e0 c1 hR]; exact hc
  | ok ix =>
    cases hq : env.queryEngine ix q 3 "tree_summarize" with
    | error e0 =>
      rw [process_pdf_go_eq_qerror env st st1 s q false ix e0 c1 hR hq]
      exact hc
    | ok r =>
      rw [process_pdf_go_eq_ok env st st1 s q false ix r c1 hR hq]
      simpa using hc

/-- A successful `try` block always comes from a successful index
construction followed by a successful query-engine invocation returning
exactly the answer. -/
lemma process_pdf_go_ok_from_engine {Ix : Type} (env : Env Ix) (st : PState Ix)
    (s q r : String) (uc : Bool)
    (h : (process_pdf_go env st s q uc).out = .ok r) :
    ∃ ix, (create_index_from_pdf env st s).out = .ok ix ∧
      env.queryEngine ix q 3 "tree_summarize" = .ok r := by
  rcases hR : create_index_from_pdf env st s with ⟨out, st1, c1⟩
  cases out with
  | error e =>
    rw [process_pdf_go_eq_error env st st1 s q uc e c1 hR] at h
    exact absurd h (by simp)
  | ok ix =>
    cases hq : env.queryEngine ix q 3 "tree_summarize" with
    | error e =>
      rw [process_pdf_go_eq_qerror env st st1 s q uc ix e c1 hR hq] at h
      exact absurd h (by simp)
    | ok r0 =>
      rw [process_pdf_go_eq_ok env st st1 s q uc ix r0 c1 hR hq] at h
      simp only [Except.ok.injEq] at h
      subst h
      exact ⟨ix, rfl, hq⟩

/-- Every failure of the `try` block surfaces as a generic `Exception`
whose message wraps the underlying cause's message after the fixed text
`Error processing PDF: `, the cause being either the index-construction
failure or a query-engine failure. -/
lemma process_pdf_go_error_shape {Ix : Type} (env : Env Ix) (st : PState Ix)
    (s q : String) (uc : Bool) (e : PyErr)
    (h : (process_pdf_go env st s q uc).out = .error e) :
    e.cls = "Exception" ∧
    ∃ cause : PyErr, e.msg = "Error processing PDF: " ++ cause.msg ∧
      ((create_index_from_pdf env st s).out = .error cause ∨
       ∃ ix, (create_index_from_pdf env st s).out = .ok ix ∧
         env.queryEngine ix q 3 "tree_summarize" = .error cause) := by
  rcases hR : create_index_from_pdf env st s with ⟨out, st1, c1⟩
  cases out with
  | error e0 =>
    rw [process_pdf_go_eq_error env st st1 s q uc e0 c1 hR] at h
    simp only [Except.error.injEq] at h
    subst h
    exact ⟨rfl, e0, rfl, Or.inl rfl⟩
  | ok ix =>
    cases hq : env.queryEngine ix q 3 "tree_summarize" with
    | error e0 =>
      rw [process_pdf_go_eq_qerror env st st1 s q uc ix e0 c1 hR hq] at h
      simp only [Except.error.injEq] at h
      subst h
      exact ⟨rfl, e0, rfl, Or.inr ⟨ix, rfl, hq⟩⟩
    | ok r =>
      rw [process_pdf_go_eq_ok env st st1 s q uc ix r c1 hR hq] at h
      exact absurd h (by simp)

/-- If the source's index is already cached, `process_pdf` performs no fetch
and no index build, whatever `use_cache` is. -/
lemma process_pdf_cached_index_calls {Ix : Type} (env : Env Ix)
    (st : PState Ix) (s q : String) (uc : Bool) (j : Ix)
    (h : lookup? s st.index_cache = some j) :
    (process_pdf env st s q uc).calls.fetch = 0 ∧
    (process_pdf env st s q uc).calls.build = 0 := by
  have hci := create_index_cached env st s j h
  unfold process_pdf
  split
  · exact ⟨rfl, rfl⟩
  · constructor
    · rw [process_pdf_go_fetch, hci]
    · rw [process_pdf_go_build, hci]
  · constructor
    · rw [process_pdf_go_fetch, hci]
    · rw [process_pdf_go_build, hci]

/-- `process_pdf` invokes the index builder at most once. -/
lemma process_pdf_build_le_one {Ix : Type} (env : Env Ix) (st : PState Ix)
    (s q : String) (uc : Bool) :
    (process_pdf env st s q uc).calls.build ≤ 1 := by
  unfold process_pdf
  split
  · exact Nat.zero_le 1
  · rw [process_pdf_go_build]
    exact create_index_build_le_one env st s
  · rw [process_pdf_go_build]
    exact create_index_build_le_one env st s

/-- The index cache is insert-only through `process_pdf`: any entry present
before the call is still present (with the same value) afterwards. -/
lemma process_pdf_index_preserved {Ix : Type} (env : Env Ix) (st : PState Ix)
    (s q k : String) (uc : Bool) (v : Ix)
    (h : lookup? k st.index_cache = some v) :
    lookup? k (process_pdf env st s q uc).st.index_cache = some v := by
  unfold process_pdf
  split
  · exact h
  · rw [process_pdf_go_index_cache]
    exact create_index_index_preserved env st s k v h
  · rw [process_pdf_go_index_cache]
    exact create_index_index_preserved env st s k v h

/-- When index construction succeeds, the `try` block invokes the query
engine exactly once. -/
lemma process_pdf_go_engine_one {Ix : Type} (env : Env Ix) (st : PState Ix)
    (s q : String) (uc : Bool) (ix : Ix)
    (hix : (create_index_from_pdf env st s).out = .ok ix) :
    (process_pdf_go env st s q uc).calls.engine = 1 := by
  have hz := create_index_engine_zero env st s
  rcases hR : create_index_from_pdf env st s with ⟨out, st1, c1⟩
  have hz' : c1.engine = 0 := by rw [hR] at hz; exact hz
  have hout : out = .ok ix := by rw [hR] at hix; exact hix
  subst hout
  cases hq : env.queryEngine ix q 3 "tree_summarize" with
  | error e =>
    rw [process_pdf_go_eq_qerror env st st1 s q uc ix e c1 hR hq]
    simp [Calls.add, hz']
  | ok r =>
    rw [process_pdf_go_eq_ok env st st1 s q uc ix r c1 hR hq]
    simp [Calls.add, hz']

/-- When fetch and build both succeed on an index-cache miss,
`create_index_from_pdf` returns the fresh index, stores it in the index
cache, removes the transient file, and invokes fetcher and builder once
each. -/
lemma create_index_miss_ok {Ix : Type} (env : Env Ix) (st : PState Ix)
    (s : String) (b : Bytes) (ix : Ix)
    (hm : lookup? s st.index_cache = Option.none)
    (hf : env.fetch s = .ok b) (hb : env.buildIndex b 1024 20 = .ok ix) :
    create_index_from_pdf env st s =
      ⟨.ok ix, ⟨st.cache, (s, ix) :: st.index_cache, Option.none⟩, ⟨1, 1, 0⟩⟩ := by
  unfold create_index_from_pdf
  simp only [hm, hf, hb]

/-- With `use_cache` set, a successful `process_pdf` leaves its answer
stored in the answer cache under `pdf_url ++ ":" ++ query`. -/
lemma process_pdf_ok_lookup {Ix : Type} (env : Env Ix) (st : PState Ix)
    (s q r : String) (h : (process_pdf env st s q true).out = .ok r) :
    lookup? (s ++ ":" ++ q) (process_pdf env st s q true).st.cache = some r := by
  cases hl : lookup? (s ++ ":" ++ q) st.cache with
  | some c =>
    rw [process_pdf_hit env st s q c hl] at h ⊢
    simp only [Except.ok.injEq] at h
    subst h
    exact hl
  | none =>
    rw [process_pdf_miss env st s q hl] at h ⊢
    exact process_pdf_go_ok_lookup env st s q r h

/-- If `process_pdf` fails, the answer cache is unchanged. -/
lemma process_pdf_error_cache {Ix : Type} (env : Env Ix) (st : PState Ix)
    (s q : String) (uc : Bool) (e : PyErr)
    (h : (process_pdf env st s q uc).out = .error e) :
    (process_pdf env st s q uc).st.cache = st.cache := by
  cases uc with
  | false =>
    rw [process_pdf_false] at h ⊢
    exact process_pdf_go_error_cache env st s q false e h
  | true =>
    cases hl : lookup? (s ++ ":" ++ q) st.cache with
    | some c =>
      rw [process_pdf_hit env st s q c hl] at h
      exact absurd h (by simp)
    | none =>
      rw [process_pdf_miss env st s q hl] at h ⊢
      exact process_pdf_go_error_cache env st s q true e h

/-- Every failure of `process_pdf` surfaces as a generic `Exception` whose
message wraps the underlying cause's message after `Error processing
PDF: `. -/
lemma process_pdf_error_shape {Ix : Type} (env : Env Ix) (st : PState Ix)
    (s q : String) (uc : Bool) (e : PyErr)
    (h : (process_pdf env st s q uc).out = .error e) :
    e.cls = "Exception" ∧
    ∃ cause : PyErr, e.msg = "Error processing PDF: " ++ cause.msg ∧
      ((create_index_from_pdf env st s).out = .error cause ∨
       ∃ ix, (create_index_from_pdf env st s).out = .ok ix ∧
         env.queryEngine ix q 3 "tree_summarize" = .error cause) := by
  cases uc with
  | false =>
    rw [process_pdf_false] at h
    exact process_pdf_go_error_shape env st s q false e h
  | true =>
    cases hl : lookup? (s ++ ":" ++ q) st.cache with
    | some c =>
      rw [process_pdf_hit env st s q c hl] at h
      exact absurd h (by simp)
    | none =>
      rw [process_pdf_miss env st s q hl] at h
      exact process_pdf_go_error_shape env st s q true e h

/-! ## String facts used for the error-message properties -/

lemma string_data_append (a b : String) : (a ++ b).data = a.data ++ b.data := rfl

/-- Appending to a nonempty string yields a nonempty string. -/
lemma append_ne_empty (a b : String) (ha : a.data ≠ []) : a ++ b ≠ "" := by
  intro h
  have hd : a.data ++ b.data = [] := congrArg String.data h
  exact ha (List.append_eq_nil.mp hd).1

/-- The two error-wrapping messages of src/app.py are distinguishable by
their fixed leading text, whatever the wrapped causes are. -/
lemma creating_ne_processing (c c' : String) :
    ("Error creating index: " ++ c) ≠ ("Error processing PDF: " ++ c') := by
  intro h
  have hd : ("Error creating index: ").data ++ c.data =
      ("Error processing PDF: ").data ++ c'.data := congrArg String.data h
  have h6 := congrArg (fun l => l[6]?) hd
  simp only [] at h6
  rw [List.getElem?_append_left (by decide), List.getElem?_append_left (by decide)] at h6
  exact absurd h6 (by decide)

/-! ## Helper lemmas about `batch_process_pdfs` -/

/-- The batch output has one item per input url. -/
lemma batch_length {Ix : Type} (env : Env Ix) (st : PState Ix)
    (urls : List String) (q : String) :
    (batch_process_pdfs env st urls q).1.length = urls.length := by
  induction urls generalizing st with
  | nil => rfl
  | cons u rest ih =>
    simp only [batch_process_pdfs, List.length_cons]
    rw [ih]

/-- The batch output carries the input urls in input order. -/
lemma batch_map_url {Ix : Type} (env : Env Ix) (st : PState Ix)
    (urls : List String) (q : String) :
    (batch_process_pdfs env st urls q).1.map BatchItem.url = urls := by
  induction urls generalizing st with
  | nil => rfl
  | cons u rest ih =>
    simp only [batch_process_pdfs, List.map_cons]
    cases hout : (process_pdf env st u q true).out <;> simp [ih]

/-- The item at position `k` of a batch run is exactly the outcome of
processing url `k` from the state reached after the first `k` urls. -/
lemma batch_get {Ix : Type} (env : Env Ix) (st : PState Ix) (urls : List String)
    (q : String) (k : Nat) (hk : k < urls.length)
    (hk2 : k < (batch_process_pdfs env st urls q).1.length) :
    (batch_process_pdfs env st urls q).1.get ⟨k, hk2⟩ =
      match (process_pdf env (batch_process_pdfs env st (urls.take k) q).2.1
              (urls.get ⟨k, hk⟩) q true).out with
      | .ok r => ⟨urls.get ⟨k, hk⟩, r, "success"⟩
      | .error e => ⟨urls.get ⟨k, hk⟩, e.msg, "error"⟩ := by
  induction urls generalizing st k with
  | nil => exact absurd hk (by simp)
  | cons u rest ih =>
    cases k with
    | zero => rfl
    | succ k' =>
      have hk' : k' < rest.length := Nat.lt_of_succ_lt_succ hk
      have hk2' : k' <
          (batch_process_pdfs env (process_pdf env st u q true).st rest q).1.length := by
        rw [batch_length]
        exact hk'
      exact ih (process_pdf env st u q true).st k' hk' hk2'

example :
    (process_pdf envOk PState.init "u" "q" true).out = .ok "answer 7 q" := by
  rfl

example :
    (process_pdf envFetchFail PState.init "u" "q" true).out =
      .error ⟨"Exception", "Error processing PDF: Error creating index: connection refused"⟩ := by
  rfl

example :
    ((batch_process_pdfs envMixed PState.init ["urlA", "urlB"] "Summarize.").1.map
      BatchItem.status) = ["success", "error"] := by
  rfl

/-! ## Claim theorems -/

/-- C1: Idempotent caching: if `process_pdf s q` with `use_cache=true`
succeeds once with answer `r`, calling it again on the resulting state
returns the byte-identical string `r`, mutates nothing, invokes no
collaborator at all, and the first call invoked the query engine at most
once (so at most once across both calls). -/
theorem process_pdf_idempotent_caching {Ix : Type} (env : Env Ix)
    (st : PState Ix) (s q r : String)
    (h : (process_pdf env st s q true).out = .ok r) :
    process_pdf env (process_pdf env st s q true).st s q true =
      ⟨.ok r, (process_pdf env st s q true).st, ⟨0, 0, 0⟩⟩ ∧
    (process_pdf env st s q true).calls.engine ≤ 1 := by
  constructor
  · exact process_pdf_hit env (process_pdf env st s q true).st s q r
      (process_pdf_ok_lookup env st s q r h)
  · cases hl : lookup? (s ++ ":" ++ q) st.cache with
    | some c =>
      rw [process_pdf_hit env st s q c hl]
      exact Nat.zero_le 1
    | none =>
      rw [process_pdf_miss env st s q hl]
      exact process_pdf_go_engine_le_one env st s q true

/-- Witness for C1 at a concrete successful run. -/
theorem process_pdf_idempotent_caching_witness :
    (process_pdf envOk PState.init "u" "q" true).out = .ok "answer 7 q" ∧
    (process_pdf envOk (process_pdf envOk PState.init "u" "q" true).st "u" "q" true =
       ⟨.ok "answer 7 q", (process_pdf envOk PState.init "u" "q" true).st, ⟨0, 0, 0⟩⟩ ∧
     (process_pdf envOk PState.init "u" "q" true).calls.engine ≤ 1) :=
  ⟨rfl, process_pdf_idempotent_caching envOk PState.init "u" "q" "answer 7 q" rfl⟩

/-- C2: Batch order and length preservation: `batch_process_pdfs` returns
exactly one item per input url, in input order, whatever happens per
item. -/
theorem batch_order_length_preservation {Ix : Type} (env : Env Ix)
    (st : PState Ix) (urls : List String) (q : String) :
    (batch_process_pdfs env st urls q).1.length = urls.length ∧
    (batch_process_pdfs env st urls q).1.map BatchItem.url = urls :=
  ⟨batch_length env st urls q, batch_map_url env st urls q⟩

/-- C3: Batch fault isolation: the item at position `k` is exactly the
outcome of processing url `k` from the state reached after the previous
urls: on failure it is an `"error"` item carrying a non-empty error
description, on success a `"success"` item carrying the answer; so one
item's failure never aborts the batch nor changes what any other position
is, and the status tag always matches the branch that populated the
payload. -/
theorem batch_fault_isolation {Ix : Type} (env : Env Ix) (st : PState Ix)
    (urls : List String) (q : String) (k : Nat) (hk : k < urls.length)
    (hk2 : k < (batch_process_pdfs env st urls q).1.length) :
    ((batch_process_pdfs env st urls q).1.get ⟨k, hk2⟩).url = urls.get ⟨k, hk⟩ ∧
    (∀ e, (process_pdf env (batch_process_pdfs env st (urls.take k) q).2.1
             (urls.get ⟨k, hk⟩) q true).out = .error e →
       (batch_process_pdfs env st urls q).1.get ⟨k, hk2⟩ =
         ⟨urls.get ⟨k, hk⟩, e.msg, "error"⟩ ∧ e.msg ≠ "") ∧
    (∀ r, (process_pdf env (batch_process_pdfs env st (urls.take k) q).2.1
             (urls.get ⟨k, hk⟩) q true).out = .ok r →
       (batch_process_pdfs env st urls q).1.get ⟨k, hk2⟩ =
         ⟨urls.get ⟨k, hk⟩, r, "success"⟩) := by
  have hb := batch_get env st urls q k hk hk2
  refine ⟨?_, ?_, ?_⟩
  · rw [hb]
    cases hout : (process_pdf env (batch_process_pdfs env st (urls.take k) q).2.1
        (urls.get ⟨k, hk⟩) q true).out <;> rfl
  · intro e he
    refine ⟨?_, ?_⟩
    · rw [hb, he]
    · obtain ⟨-, cause, hmsg, -⟩ :=
        process_pdf_error_shape env (batch_process_pdfs env st (urls.take k) q).2.1
          (urls.get ⟨k, hk⟩) q true e he
      rw [hmsg]
      exact append_ne_empty "Error processing PDF: " cause.msg (by decide)
  · intro r hr
    rw [hb, hr]

/-- Witness for C3: a two-url batch where the second url's fetch fails with
a 404: position 1 is an `"error"` item with a non-empty description. -/
theorem batch_fault_isolation_witness :
    (batch_process_pdfs envMixed PState.init ["urlA", "urlB"] "Summarize.").1.get
        ⟨1, by decide⟩ =
      ⟨"urlB", "Error processing PDF: Error creating index: 404 Not Found", "error"⟩ ∧
    ("Error processing PDF: Error creating index: 404 Not Found" : String) ≠ "" :=
  (batch_fault_isolation envMixed PState.init ["urlA", "urlB"] "Summarize." 1
      (by decide) (by decide)).2.1
    ⟨"Exception", "Error processing PDF: Error creating index: 404 Not Found"⟩ rfl

/-- C4 counterexample: with `use_cache=false`, when index construction
fails (here: the fetch fails), the query engine is NOT invoked, refuting
"always invokes the Query Engine collaborator"; the call instead raises. -/
theorem cache_bypass_counterexample :
    (process_pdf envFetchFail
        (⟨[("u:q", "cached answer")], [], Option.none⟩ : PState Nat)
        "u" "q" false).calls.engine = 0 ∧
    (process_pdf envFetchFail
        (⟨[("u:q", "cached answer")], [], Option.none⟩ : PState Nat)
        "u" "q" false).out =
      .error ⟨"Exception", "Error processing PDF: Error creating index: connection refused"⟩ :=
  ⟨rfl, rfl⟩

/-- C4 amended: with `use_cache=false`, the answer cache is never written
(it is left unchanged); whenever index construction succeeds the query
engine is invoked (exactly once); and a returned answer always comes fresh
from the query engine, never from the answer cache. -/
theorem cache_bypass_amended {Ix : Type} (env : Env Ix) (st : PState Ix)
    (s q : String) :
    (process_pdf env st s q false).st.cache = st.cache ∧
    (∀ ix, (create_index_from_pdf env st s).out = .ok ix →
       (process_pdf env st s q false).calls.engine = 1) ∧
    (∀ r, (process_pdf env st s q false).out = .ok r →
       ∃ ix, (create_index_from_pdf env st s).out = .ok ix ∧
         env.queryEngine ix q 3 "tree_summarize" = .ok r) := by
  refine ⟨?_, ?_, ?_⟩
  · rw [process_pdf_false]
    exact process_pdf_go_false_cache env st s q
  · intro ix hix
    rw [process_pdf_false]
    exact process_pdf_go_engine_one env st s q false ix hix
  · intro r hr
    rw [process_pdf_false] at hr
    exact process_pdf_go_ok_from_engine env st s q r false hr

/-- Witness for the amended C4 at a concrete input with a pre-populated
answer cache. -/
theorem cache_bypass_amended_witness :
    (process_pdf envOk (⟨[("u:q", "old")], [], Option.none⟩ : PState Nat)
        "u" "q" false).st.cache = [("u:q", "old")] ∧
    (process_pdf envOk (⟨[("u:q", "old")], [], Option.none⟩ : PState Nat)
        "u" "q" false).calls.engine = 1 :=
  ⟨(cache_bypass_amended envOk ⟨[("u:q", "old")], [], Option.none⟩ "u" "q").1,
   (cache_bypass_amended envOk ⟨[("u:q", "old")], [], Option.none⟩ "u" "q").2.1 7 rfl⟩

/-- C5 counterexample: when index construction fails on the first call
(the build fails, so no index is cached), the second call with a distinct
query builds again: the index builder is invoked twice across
`process_pdf(s, q1, true); process_pdf(s, q2, true)`, refuting the
unconditional "at most once for s". -/
theorem index_reuse_counterexample :
    ¬ ((process_pdf envBuildFail PState.init "u" "q1" true).calls.build +
         (process_pdf envBuildFail (process_pdf envBuildFail PState.init "u" "q1" true).st
             "u" "q2" true).calls.build ≤ 1) := by
  decide

/-- C5 amended: a cached index is returned unchanged with no fetch and no
build; the index cache is insert-only (existing entries survive any
`process_pdf` call unchanged); and provided the first call's index
construction succeeds, two successive `process_pdf` calls on the same
source (any two queries) invoke the index builder at most once in total. -/
theorem index_reuse_amended {Ix : Type} (env : Env Ix) (st : PState Ix)
    (s q1 q2 : String) (uc : Bool) :
    (∀ ix, lookup? s st.index_cache = some ix →
       create_index_from_pdf env st s = ⟨.ok ix, st, ⟨0, 0, 0⟩⟩) ∧
    (∀ k v, lookup? k st.index_cache = some v →
       lookup? k (process_pdf env st s q1 uc).st.index_cache = some v) ∧
    (∀ j, (create_index_from_pdf env st s).out = .ok j →
       (process_pdf env st s q1 true).calls.build +
         (process_pdf env (process_pdf env st s q1 true).st s q2 true).calls.build ≤ 1) := by
  refine ⟨?_, ?_, ?_⟩
  · intro ix hix
    exact create_index_cached env st s ix hix
  · intro k v hv
    exact process_pdf_index_preserved env st s q1 k uc v hv
  · intro j hj
    cases hl : lookup? (s ++ ":" ++ q1) st.cache with
    | some c =>
      rw [process_pdf_hit env st s q1 c hl]
      simpa using process_pdf_build_le_one env st s q2 true
    | none =>
      rw [process_pdf_miss env st s q1 hl]
      have h1 : (process_pdf_go env st s q1 true).calls.build ≤ 1 := by
        rw [process_pdf_go_build]
        exact create_index_build_le_one env st s
      have hcached : lookup? s (process_pdf_go env st s q1 true).st.index_cache = some j := by
        rw [process_pdf_go_index_cache]
        exact create_index_ok_lookup env st s j hj
      have h2 := (process_pdf_cached_index_calls env (process_pdf_go env st s q1 true).st
          s q2 true j hcached).2
      omega

/-- Witness for the amended C5 at concrete inputs. -/
theorem index_reuse_amended_witness :
    create_index_from_pdf envOk (⟨[], [("u", 5)], Option.none⟩ : PState Nat) "u" =
      ⟨.ok 5, ⟨[], [("u", 5)], Option.none⟩, ⟨0, 0, 0⟩⟩ ∧
    lookup? "u" (process_pdf envOk (⟨[], [("u", 5)], Option.none⟩ : PState Nat)
        "u" "q1" true).st.index_cache = some 5 ∧
    (process_pdf envOk PState.init "u" "q1" true).calls.build +
      (process_pdf envOk (process_pdf envOk PState.init "u" "q1" true).st
          "u" "q2" true).calls.build ≤ 1 :=
  ⟨(index_reuse_amended envOk ⟨[], [("u", 5)], Option.none⟩ "u" "q1" "q2" true).1 5 rfl,
   (index_reuse_amended envOk ⟨[], [("u", 5)], Option.none⟩ "u" "q1" "q2" true).2.1 "u" 5 rfl,
   (index_reuse_amended envOk PState.init "u" "q1" "q2" true).2.2 7 rfl⟩

/-- C6: Error atomicity: whenever `process_pdf` fails — for any source,
query and `use_cache` value — the answer cache afterwards equals the answer
cache before the call: no entry was written. -/
theorem process_pdf_error_atomicity {Ix : Type} (env : Env Ix) (st : PState Ix)
    (s q : String) (uc : Bool) (e : PyErr)
    (h : (process_pdf env st s q uc).out = .error e) :
    (process_pdf env st s q uc).st.cache = st.cache :=
  process_pdf_error_cache env st s q uc e h

/-- Witness for C6 at a concrete failing run. -/
theorem process_pdf_error_atomicity_witness :
    (process_pdf envFetchFail PState.init "u" "q" true).out =
      .error ⟨"Exception", "Error processing PDF: Error creating index: connection refused"⟩ ∧
    (process_pdf envFetchFail PState.init "u" "q" true).st.cache =
      (PState.init : PState Nat).cache :=
  ⟨rfl, process_pdf_error_atomicity envFetchFail PState.init "u" "q" true
     ⟨"Exception", "Error processing PDF: Error creating index: connection refused"⟩ rfl⟩

/-- C7 counterexample: every single-document failure reaches the caller as
the same single generic exception class `Exception` — a fetch failure
inside `create_index_from_pdf`, the same failure propagated through
`process_pdf`, and a query-engine failure all carry `cls = "Exception"` —
so failures are not distinguishable by a typed failure kind, only by their
message text. -/
theorem typed_errors_counterexample :
    (create_index_from_pdf envFetchFail PState.init "u").out =
      .error ⟨"Exception", "Error creating index: connection refused"⟩ ∧
    (process_pdf envFetchFail PState.init "u" "q" true).out =
      .error ⟨"Exception", "Error processing PDF: Error creating index: connection refused"⟩ ∧
    (process_pdf envEngineFail PState.init "u" "q" true).out =
      .error ⟨"Exception", "Error processing PDF: engine blew up"⟩ :=
  ⟨rfl, rfl, rfl⟩

/-- C7 amended: whenever fetch or index construction fails,
`create_index_from_pdf` fails with a generic `Exception` whose message is
`Error creating index: ` followed by the underlying cause's message;
whenever index construction or query execution fails, `process_pdf` fails
with a generic `Exception` whose message is `Error processing PDF: `
followed by the underlying cause's message; the two failure kinds are
distinguishable by these fixed message heads (never by a distinct exception
class). -/
theorem typed_errors_amended {Ix : Type} (env : Env Ix) (st : PState Ix)
    (s q : String) (uc : Bool) (e : PyErr) :
    ((create_index_from_pdf env st s).out = .error e →
       e.cls = "Exception" ∧
       ∃ cause : PyErr, e.msg = "Error creating index: " ++ cause.msg ∧
         (env.fetch s = .error cause ∨
          ∃ b, env.fetch s = .ok b ∧ env.buildIndex b 1024 20 = .error cause)) ∧
    ((process_pdf env st s q uc).out = .error e →
       e.cls = "Exception" ∧
       ∃ cause : PyErr, e.msg = "Error processing PDF: " ++ cause.msg ∧
         ((create_index_from_pdf env st s).out = .error cause ∨
          ∃ ix, (create_index_from_pdf env st s).out = .ok ix ∧
            env.queryEngine ix q 3 "tree_summarize" = .error cause)) ∧
    (∀ c c' : String, "Error creating index: " ++ c ≠ "Error processing PDF: " ++ c') :=
  ⟨create_index_error_shape env st s e,
   process_pdf_error_shape env st s q uc e,
   creating_ne_processing⟩

/-- Witness for the amended C7 at a concrete fetch failure. -/
theorem typed_errors_amended_witness :
    (⟨"Exception", "Error creating index: connection refused"⟩ : PyErr).cls = "Exception" ∧
    ∃ cause : PyErr,
      (⟨"Exception", "Error creating index: connection refused"⟩ : PyErr).msg =
        "Error creating index: " ++ cause.msg ∧
      (envFetchFail.fetch "u" = .error cause ∨
       ∃ b, envFetchFail.fetch "u" = .ok b ∧
         envFetchFail.buildIndex b 1024 20 = .error cause) :=
  (typed_errors_amended envFetchFail PState.init "u" "q" true
      ⟨"Exception", "Error creating index: connection refused"⟩).1 rfl

/-- C8: answer-cache key collision: the key is the bare concatenation
`pdf_url ++ ":" ++ query`, so the distinct pairs ("a:b", "c") and
("a", "b:c") share the key "a:b:c": after a successful cached call for
("a:b", "c") with answer `r`, the call for ("a", "b:c") returns that same
cached answer with no collaborator invocation and no state change — source
"a" is never fetched or indexed. -/
theorem cache_key_collision {Ix : Type} (env : Env Ix) (st : PState Ix)
    (r : String) (h : (process_pdf env st "a:b" "c" true).out = .ok r) :
    process_pdf env (process_pdf env st "a:b" "c" true).st "a" "b:c" true =
      ⟨.ok r, (process_pdf env st "a:b" "c" true).st, ⟨0, 0, 0⟩⟩ ∧
    ("a:b", "c") ≠ (("a", "b:c") : String × String) := by
  constructor
  · have hl := process_pdf_ok_lookup env st "a:b" "c" r h
    have hl' : lookup? ("a" ++ ":" ++ "b:c")
        (process_pdf env st "a:b" "c" true).st.cache = some r := hl
    exact process_pdf_hit env (process_pdf env st "a:b" "c" true).st "a" "b:c" r hl'
  · decide

/-- Witness for C8 at a concrete successful run. -/
theorem cache_key_collision_witness :
    (process_pdf envOk PState.init "a:b" "c" true).out = .ok "answer 7 c" ∧
    (process_pdf envOk (process_pdf envOk PState.init "a:b" "c" true).st "a" "b:c" true =
       ⟨.ok "answer 7 c", (process_pdf envOk PState.init "a:b" "c" true).st, ⟨0, 0, 0⟩⟩ ∧
     ("a:b", "c") ≠ (("a", "b:c") : String × String)) :=
  ⟨rfl, cache_key_collision envOk PState.init "answer 7 c" rfl⟩

/-- C9: the `use_cache` flag governs only the answer cache: with
`use_cache=false` the index cache is still consulted (a cached index means
no fetch and no build, and the index cache is untouched), and on an
index-cache miss with successful fetch and build the fresh index is still
stored in the index cache. -/
theorem usecache_governs_only_answer_cache {Ix : Type} (env : Env Ix)
    (st : PState Ix) (s q : String) :
    (∀ ix, lookup? s st.index_cache = some ix →
       (process_pdf env st s q false).calls.fetch = 0 ∧
       (process_pdf env st s q false).calls.build = 0 ∧
       (process_pdf env st s q false).st.index_cache = st.index_cache) ∧
    (∀ b ix, lookup? s st.index_cache = Option.none →
       env.fetch s = .ok b → env.buildIndex b 1024 20 = .ok ix →
       lookup? s (process_pdf env st s q false).st.index_cache = some ix) := by
  constructor
  · intro ix hix
    refine ⟨(process_pdf_cached_index_calls env st s q false ix hix).1,
            (process_pdf_cached_index_calls env st s q false ix hix).2, ?_⟩
    rw [process_pdf_false, process_pdf_go_index_cache,
        create_index_cached env st s ix hix]
  · intro b ix hm hf hb
    rw [process_pdf_false, process_pdf_go_index_cache,
        create_index_miss_ok env st s b ix hm hf hb]
    simp [lookup?]

/-- Witness for C9: a cached index is reused without fetch or build, and a
fresh index is stored even with `use_cache=false`. -/
theorem usecache_governs_only_answer_cache_witness :
    ((process_pdf envOk (⟨[], [("u", 5)], Option.none⟩ : PState Nat)
        "u" "q" false).calls.fetch = 0 ∧
     (process_pdf envOk (⟨[], [("u", 5)], Option.none⟩ : PState Nat)
        "u" "q" false).calls.build = 0 ∧
     (process_pdf envOk (⟨[], [("u", 5)], Option.none⟩ : PState Nat)
        "u" "q" false).st.index_cache =
       (⟨[], [("u", 5)], Option.none⟩ : PState Nat).index_cache) ∧
    lookup? "u" (process_pdf envOk (PState.init : PState Nat)
        "u" "q" false).st.index_cache = some 7 :=
  ⟨(usecache_governs_only_answer_cache envOk ⟨[], [("u", 5)], Option.none⟩ "u" "q").1 5 rfl,
   (usecache_governs_only_answer_cache envOk PState.init "u" "q").2 [1, 2, 3] 7 rfl rfl rfl⟩

/-- C10: empty-batch edge case: `batch_process_pdfs` on the empty url list
does not fail: it returns the empty item list, leaves the state (both
caches and the transient file) untouched, and invokes no collaborator. -/
theorem batch_empty_noop {Ix : Type} (env : Env Ix) (st : PState Ix)
    (q : String) :
    batch_process_pdfs env st [] q = ([], st, ⟨0, 0, 0⟩) := rfl
